import Mathlib

/-!
Shallow embedding of the DFPlayer Mini MP3 driver (enjoyneering/DFPlayer,
src/DFPlayer.h and src/DFPlayer.cpp) and proofs about its frame codec and
command/query dispatcher.

Modelling conventions:
- machine bytes are `Nat` with an explicit `% 256` wherever the C code stores
  into the `uint8_t` buffer `_dataBuffer` or converts to `uint8_t`;
- the `int16_t checksum` variable is an `Int` passed through `toInt16`, which
  realises the wrap of an `int16_t` assignment in two complement form;
- the serial transport is explicit: outbound traffic and delays become a list
  of `Event`s, inbound traffic is a `List Nat` argument (the bytes that
  arrived before the read timeout; `Stream::readBytes` fills the buffer with
  at most `DFPLAYER_UART_FRAME_SIZE` of them, the memset keeps the rest 0);
- the mutable session object (`_threshold`, `_dataBuffer`, `_moduleType`,
  `_ack`) is the structure `DFPlayer`, and every member function becomes a
  function from that state (plus inbound bytes where the code reads serial)
  to its result, the new state and the emitted events.
-/

set_option maxHeartbeats 1000000

namespace DFPlayerEmb

/-- Supported module profiles, `DFPLAYER_MODULE_TYPE` in DFPlayer.h. -/
inductive ModuleType where
  | MINI
  | FN_X10P
  | HW_247A
  | NO_CHECKSUM
  deriving DecidableEq, Repr

/-- Outward-visible effect of a driver call: bytes written to the serial
stream, or a call to `delay(ms)`. -/
inductive Event where
  | write (bytes : List Nat)
  | delayMs (ms : Nat)
  deriving DecidableEq, Repr

/-- Session state of the `DFPlayer` class: `_threshold`, `_dataBuffer`
(shared TX/RX buffer of `DFPLAYER_UART_FRAME_SIZE` bytes), `_moduleType`,
`_ack`. -/
structure DFPlayer where
  threshold : Nat
  dataBuffer : List Nat
  moduleType : ModuleType
  ack : Bool
  deriving DecidableEq, Repr

/-- UART frame constant `DFPLAYER_UART_FRAME_SIZE` (0x0A). -/
def DFPLAYER_UART_FRAME_SIZE : Nat := 0x0A

/-- UART frame constant `DFPLAYER_UART_START_BYTE` (0x7E). -/
def DFPLAYER_UART_START_BYTE : Nat := 0x7E

/-- UART frame constant `DFPLAYER_UART_VERSION` (0xFF). -/
def DFPLAYER_UART_VERSION : Nat := 0xFF

/-- UART frame constant `DFPLAYER_UART_DATA_LEN` (0x06). -/
def DFPLAYER_UART_DATA_LEN : Nat := 0x06

/-- UART frame constant `DFPLAYER_UART_END_BYTE` (0xEF). -/
def DFPLAYER_UART_END_BYTE : Nat := 0xEF

/-- Command code `DFPLAYER_PLAY_TRACK`. -/
def DFPLAYER_PLAY_TRACK : Nat := 0x03

/-- Command code `DFPLAYER_SET_VOL`. -/
def DFPLAYER_SET_VOL : Nat := 0x06

/-- Command code `DFPLAYER_SET_PLAY_SRC`. -/
def DFPLAYER_SET_PLAY_SRC : Nat := 0x09

/-- Query code `DFPLAYER_GET_STATUS`. -/
def DFPLAYER_GET_STATUS : Nat := 0x42

/-- Query code `DFPLAYER_GET_VOL`. -/
def DFPLAYER_GET_VOL : Nat := 0x43

/-- Query code `DFPLAYER_GET_EQ`. -/
def DFPLAYER_GET_EQ : Nat := 0x44

/-- Query code `DFPLAYER_GET_PLAY_MODE`. -/
def DFPLAYER_GET_PLAY_MODE : Nat := 0x45

/-- Query code `DFPLAYER_GET_VERSION`. -/
def DFPLAYER_GET_VERSION : Nat := 0x46

/-- Query code `DFPLAYER_GET_QNT_USB_FILES`. -/
def DFPLAYER_GET_QNT_USB_FILES : Nat := 0x47

/-- Query code `DFPLAYER_GET_QNT_TF_FILES`. -/
def DFPLAYER_GET_QNT_TF_FILES : Nat := 0x48

/-- Query code `DFPLAYER_GET_QNT_FLASH_FILES`. -/
def DFPLAYER_GET_QNT_FLASH_FILES : Nat := 0x49

/-- Query code `DFPLAYER_GET_USB_TRACK`. -/
def DFPLAYER_GET_USB_TRACK : Nat := 0x4B

/-- Query code `DFPLAYER_GET_TF_TRACK`. -/
def DFPLAYER_GET_TF_TRACK : Nat := 0x4C

/-- Query code `DFPLAYER_GET_FLASH_TRACK`. -/
def DFPLAYER_GET_FLASH_TRACK : Nat := 0x4D

/-- Query code `DFPLAYER_GET_QNT_FOLDER_FILES`. -/
def DFPLAYER_GET_QNT_FOLDER_FILES : Nat := 0x4E

/-- Query code `DFPLAYER_GET_QNT_FOLDERS`. -/
def DFPLAYER_GET_QNT_FOLDERS : Nat := 0x4F

/-- Conversion of a C value to `uint8_t` (as happens on every store into
`_dataBuffer` and on every `uint8_t` return). -/
def u8 (x : Nat) : Nat := x % 256

/-- Numeric value of the `bool` field `_ack` when stored into the `uint8_t`
buffer (`_dataBuffer[4] = _ack`). -/
def ackByte (b : Bool) : Nat := if b then 1 else 0

/-- Value taken by an `int16_t` variable when an integer expression is
assigned to it: wrap into the range `[-32768, 32767]`. -/
def toInt16 (x : Int) : Int := (x + 32768) % 65536 - 32768

/-- Arithmetic right shift by 8 of an `int16_t` value, as in
`checksum >> 8` (sign-extending, i.e. floor division by 256). -/
def sar8 (x : Int) : Int := x / 256

/-- Arduino macro `constrain(amt, low, high)`:
`((amt)<(low)?(low):((amt)>(high)?(high):(amt)))`. -/
def constrain (x lo hi : Nat) : Nat := if x < lo then lo else if x > hi then hi else x

/-- DFPlayer::_sendData — builds the outbound frame in `_dataBuffer`, with
the variant-specific checksum switch, and writes it to serial (10 bytes, or
8 for `NO_CHECKSUM`, in which case bytes 8 and 9 of the shared buffer keep
their previous contents).  For `DFPLAYER_HW_247A` a `delay(_threshold)`
follows the write.  In the `NO_CHECKSUM` branch the C `checksum` variable
stays uninitialized and unused; the model supplies an arbitrary 0. -/
def _sendData (s : DFPlayer) (command dataMSB dataLSB : Nat) : DFPlayer × List Event :=
  let b1 := DFPLAYER_UART_VERSION
  let b2 := DFPLAYER_UART_DATA_LEN
  let b3 := u8 command
  let b4 := ackByte s.ack
  let b5 := u8 dataMSB
  let b6 := u8 dataLSB
  let checksum : Int :=
    match s.moduleType with
    | ModuleType.MINI | ModuleType.HW_247A =>
        toInt16 (toInt16 0 - b1 - b2 - b3 - b4 - b5 - b6)
    | ModuleType.FN_X10P =>
        -- the source literal is 35535; the inline comment there says 0xFFFF
        toInt16 (toInt16 35535 - b1 - b2 - b3 - b4 - b5 - b6 + 1)
    | ModuleType.NO_CHECKSUM => 0
  match s.moduleType with
  | ModuleType.MINI | ModuleType.FN_X10P | ModuleType.HW_247A =>
      let b7 := ((sar8 checksum) % 256).toNat
      let b8 := (checksum % 256).toNat
      let buf := [DFPLAYER_UART_START_BYTE, b1, b2, b3, b4, b5, b6, b7, b8,
                  DFPLAYER_UART_END_BYTE]
      ({ s with dataBuffer := buf },
        Event.write buf ::
          (if s.moduleType = ModuleType.HW_247A then [Event.delayMs s.threshold] else []))
  | ModuleType.NO_CHECKSUM =>
      let sent := [DFPLAYER_UART_START_BYTE, b1, b2, b3, b4, b5, b6,
                   DFPLAYER_UART_END_BYTE]
      let buf := sent ++ [s.dataBuffer.getD 8 0, s.dataBuffer.getD 9 0]
      ({ s with dataBuffer := buf }, [Event.write sent])

/-- DFPlayer::_readData — memsets the buffer to 0, reads up to
`DFPLAYER_UART_FRAME_SIZE` of the bytes that arrived before the timeout
(`incoming`), fails if fewer than the frame size arrived, then checks the
start, version, length and end bytes. -/
def _readData (s : DFPlayer) (incoming : List Nat) : Bool × DFPlayer :=
  let buf := (List.range DFPLAYER_UART_FRAME_SIZE).map (fun i => u8 (incoming.getD i 0))
  let s' := { s with dataBuffer := buf }
  if incoming.length < DFPLAYER_UART_FRAME_SIZE then (false, s')
  else
    (((buf.getD 0 0 == DFPLAYER_UART_START_BYTE) &&
      (buf.getD 1 0 == DFPLAYER_UART_VERSION) &&
      (buf.getD 2 0 == DFPLAYER_UART_DATA_LEN) &&
      (buf.getD 9 0 == DFPLAYER_UART_END_BYTE)), s')

/-- DFPlayer::_getResponse — reads a reply, checks that byte 3 echoes the
command, and returns the big-endian 16-bit payload of bytes 5 and 6, or the
sentinel 0 on any failure. -/
def _getResponse (s : DFPlayer) (incoming : List Nat) (command : Nat) : Nat × DFPlayer :=
  let r := _readData s incoming
  if r.1 && (r.2.dataBuffer.getD 3 0 == u8 command) then
    (((r.2.dataBuffer.getD 5 0) <<< 8) ||| r.2.dataBuffer.getD 6 0, r.2)
  else (0, r.2)

/-- DFPlayer::playTrack — clamps the track to 1..9999 and sends
`DFPLAYER_PLAY_TRACK` with the track split over the two data bytes. -/
def playTrack (s : DFPlayer) (track : Nat) : DFPlayer × List Event :=
  let track := constrain track 1 9999
  _sendData s DFPLAYER_PLAY_TRACK (track >>> 8) track

/-- DFPlayer::setVolume — clamps the volume to 0..30 and sends
`DFPLAYER_SET_VOL`. -/
def setVolume (s : DFPlayer) (volume : Nat) : DFPlayer × List Event :=
  let volume := constrain volume 0 30
  _sendData s DFPLAYER_SET_VOL 0 volume

/-- DFPlayer::setSource — clamps the source to 1..6, sends
`DFPLAYER_SET_PLAY_SRC`, then delays 200 ms unless the (clamped) source is
6 (sleep). -/
def setSource (s : DFPlayer) (source : Nat) : DFPlayer × List Event :=
  let source := constrain source 1 6
  let r := _sendData s DFPLAYER_SET_PLAY_SRC 0 source
  (r.1, r.2 ++ (if source ≠ 6 then [Event.delayMs 200] else []))

/-- DFPlayer::wakeup — `if (source != 6) {setSource(source);}`. -/
def wakeup (s : DFPlayer) (source : Nat) : DFPlayer × List Event :=
  if source ≠ 6 then setSource s source else (s, [])

/-- DFPlayer::getStatus — sends `DFPLAYER_GET_STATUS` and maps the 16-bit
response onto the documented status codes (0=stop, 1=playing, 2=pause,
3=sleep/standby, 4=communication error, 5=unknown), with the `_moduleType`
dependent reading of responses 0x0000 and 0x0001. -/
def getStatus (s : DFPlayer) (incoming : List Nat) : Nat × DFPlayer × List Event :=
  let t := _sendData s DFPLAYER_GET_STATUS 0 0
  let r := _getResponse t.1 incoming DFPLAYER_GET_STATUS
  let st :=
    match r.1 with
    | 0x0200 => 0
    | 0x0201 => 1
    | 0x0202 => 2
    | 0x0002 => 3
    | 0x0001 => if r.2.moduleType ≠ ModuleType.HW_247A then 5 else 1
    | 0x0000 => if r.2.moduleType ≠ ModuleType.HW_247A then 4 else 0
    | _ => 5
  (st, r.2, t.2)

/-- DFPlayer::getVolume — query wrapper, `uint8_t` return. -/
def getVolume (s : DFPlayer) (incoming : List Nat) : Nat × DFPlayer × List Event :=
  let t := _sendData s DFPLAYER_GET_VOL 0 0
  let r := _getResponse t.1 incoming DFPLAYER_GET_VOL
  (u8 r.1, r.2, t.2)

/-- DFPlayer::getEQ — query wrapper, `uint8_t` return. -/
def getEQ (s : DFPlayer) (incoming : List Nat) : Nat × DFPlayer × List Event :=
  let t := _sendData s DFPLAYER_GET_EQ 0 0
  let r := _getResponse t.1 incoming DFPLAYER_GET_EQ
  (u8 r.1, r.2, t.2)

/-- DFPlayer::getPlayMode — query wrapper, `uint8_t` return. -/
def getPlayMode (s : DFPlayer) (incoming : List Nat) : Nat × DFPlayer × List Event :=
  let t := _sendData s DFPLAYER_GET_PLAY_MODE 0 0
  let r := _getResponse t.1 incoming DFPLAYER_GET_PLAY_MODE
  (u8 r.1, r.2, t.2)

/-- DFPlayer::getVersion — query wrapper, `uint8_t` return. -/
def getVersion (s : DFPlayer) (incoming : List Nat) : Nat × DFPlayer × List Event :=
  let t := _sendData s DFPLAYER_GET_VERSION 0 0
  let r := _getResponse t.1 incoming DFPLAYER_GET_VERSION
  (u8 r.1, r.2, t.2)

/-- DFPlayer::getTotalTracksSD — query wrapper, `uint16_t` return. -/
def getTotalTracksSD (s : DFPlayer) (incoming : List Nat) : Nat × DFPlayer × List Event :=
  let t := _sendData s DFPLAYER_GET_QNT_TF_FILES 0 0
  let r := _getResponse t.1 incoming DFPLAYER_GET_QNT_TF_FILES
  (r.1, r.2, t.2)

/-- DFPlayer::getTotalTracksUSB — query wrapper, `uint16_t` return. -/
def getTotalTracksUSB (s : DFPlayer) (incoming : List Nat) : Nat × DFPlayer × List Event :=
  let t := _sendData s DFPLAYER_GET_QNT_USB_FILES 0 0
  let r := _getResponse t.1 incoming DFPLAYER_GET_QNT_USB_FILES
  (r.1, r.2, t.2)

/-- DFPlayer::getTotalTracksNORFlash — query wrapper, `uint16_t` return. -/
def getTotalTracksNORFlash (s : DFPlayer) (incoming : List Nat) : Nat × DFPlayer × List Event :=
  let t := _sendData s DFPLAYER_GET_QNT_FLASH_FILES 0 0
  let r := _getResponse t.1 incoming DFPLAYER_GET_QNT_FLASH_FILES
  (r.1, r.2, t.2)

/-- DFPlayer::getTrackSD — query wrapper, `uint16_t` return. -/
def getTrackSD (s : DFPlayer) (incoming : List Nat) : Nat × DFPlayer × List Event :=
  let t := _sendData s DFPLAYER_GET_TF_TRACK 0 0
  let r := _getResponse t.1 incoming DFPLAYER_GET_TF_TRACK
  (r.1, r.2, t.2)

/-- DFPlayer::getTrackUSB — query wrapper, `uint16_t` return. -/
def getTrackUSB (s : DFPlayer) (incoming : List Nat) : Nat × DFPlayer × List Event :=
  let t := _sendData s DFPLAYER_GET_USB_TRACK 0 0
  let r := _getResponse t.1 incoming DFPLAYER_GET_USB_TRACK
  (r.1, r.2, t.2)

/-- DFPlayer::getTrackNORFlash — query wrapper, `uint16_t` return. -/
def getTrackNORFlash (s : DFPlayer) (incoming : List Nat) : Nat × DFPlayer × List Event :=
  let t := _sendData s DFPLAYER_GET_FLASH_TRACK 0 0
  let r := _getResponse t.1 incoming DFPLAYER_GET_FLASH_TRACK
  (r.1, r.2, t.2)

/-- DFPlayer::getTotalTracksFolder — query wrapper with a folder argument,
`uint8_t` return. -/
def getTotalTracksFolder (s : DFPlayer) (folder : Nat) (incoming : List Nat) :
    Nat × DFPlayer × List Event :=
  let t := _sendData s DFPLAYER_GET_QNT_FOLDER_FILES 0 folder
  let r := _getResponse t.1 incoming DFPLAYER_GET_QNT_FOLDER_FILES
  (u8 r.1, r.2, t.2)

/-- DFPlayer::getTotalFolders — query wrapper, `uint8_t` return. -/
def getTotalFolders (s : DFPlayer) (incoming : List Nat) : Nat × DFPlayer × List Event :=
  let t := _sendData s DFPLAYER_GET_QNT_FOLDERS 0 0
  let r := _getResponse t.1 incoming DFPLAYER_GET_QNT_FOLDERS
  (u8 r.1, r.2, t.2)

/-- DFPlayer::getCommandStatus — pure switch over byte 3 of `_dataBuffer`
(no serial traffic): 0x40 (`DFPLAYER_RETURN_ERROR`) yields the error detail
from byte 6; 0x41, 0x3D, 0x3F yield 0x0B, 0x0C, 0x0D; anything else 0. -/
def getCommandStatus (s : DFPlayer) : Nat :=
  match s.dataBuffer.getD 3 0 with
  | 0x40 => s.dataBuffer.getD 6 0
  | 0x41 => 0x0B
  | 0x3D => 0x0C
  | 0x3F => 0x0D
  | _ => 0x00

/-- Sample session state used to instantiate theorems: standard variant
(`DFPLAYER_MINI`), feedback off, 100 ms timeout, zeroed buffer. -/
def stdState : DFPlayer :=
  { threshold := 100, dataBuffer := List.replicate 10 0,
    moduleType := ModuleType.MINI, ack := false }

/-- Sample session state in the alternate-offset variant
(`DFPLAYER_FN_X10P`). -/
def fnState : DFPlayer :=
  { threshold := 100, dataBuffer := List.replicate 10 0,
    moduleType := ModuleType.FN_X10P, ack := false }

/-- Sample session state in the no-checksum variant
(`DFPLAYER_NO_CHECKSUM`). -/
def noChkState : DFPlayer :=
  { threshold := 100, dataBuffer := List.replicate 10 0,
    moduleType := ModuleType.NO_CHECKSUM, ack := false }

/-- Failure condition of a query, phrased on the inbound bytes: fewer bytes
than the frame size arrived, a structural constant is corrupted, or byte 3
does not echo the expected command. -/
def commFail (incoming : List Nat) (command : Nat) : Prop :=
  incoming.length < DFPLAYER_UART_FRAME_SIZE ∨
  u8 (incoming.getD 0 0) ≠ DFPLAYER_UART_START_BYTE ∨
  u8 (incoming.getD 1 0) ≠ DFPLAYER_UART_VERSION ∨
  u8 (incoming.getD 2 0) ≠ DFPLAYER_UART_DATA_LEN ∨
  u8 (incoming.getD 9 0) ≠ DFPLAYER_UART_END_BYTE ∨
  u8 (incoming.getD 3 0) ≠ u8 command

theorem map_range_ten (f : Nat → Nat) :
    (List.range 10).map f = [f 0, f 1, f 2, f 3, f 4, f 5, f 6, f 7, f 8, f 9] := rfl

theorem readData_buffer (s : DFPlayer) (incoming : List Nat) :
    (_readData s incoming).2.dataBuffer =
      [u8 (incoming.getD 0 0), u8 (incoming.getD 1 0), u8 (incoming.getD 2 0),
       u8 (incoming.getD 3 0), u8 (incoming.getD 4 0), u8 (incoming.getD 5 0),
       u8 (incoming.getD 6 0), u8 (incoming.getD 7 0), u8 (incoming.getD 8 0),
       u8 (incoming.getD 9 0)] := by
  simp only [_readData, DFPLAYER_UART_FRAME_SIZE, map_range_ten]
  split <;> rfl

theorem readData_moduleType (s : DFPlayer) (incoming : List Nat) :
    (_readData s incoming).2.moduleType = s.moduleType := by
  simp only [_readData]
  split <;> rfl

theorem readData_true_iff (s : DFPlayer) (incoming : List Nat) :
    (_readData s incoming).1 = true ↔
      (DFPLAYER_UART_FRAME_SIZE ≤ incoming.length ∧
       u8 (incoming.getD 0 0) = DFPLAYER_UART_START_BYTE ∧
       u8 (incoming.getD 1 0) = DFPLAYER_UART_VERSION ∧
       u8 (incoming.getD 2 0) = DFPLAYER_UART_DATA_LEN ∧
       u8 (incoming.getD 9 0) = DFPLAYER_UART_END_BYTE) := by
  simp only [_readData, DFPLAYER_UART_FRAME_SIZE, map_range_ten]
  split
  · rename_i h
    simp only [Bool.false_eq_true, false_iff]
    intro hc
    omega
  · rename_i h
    simp only [Bool.and_eq_true, beq_iff_eq, List.getD_cons_zero, List.getD_cons_succ]
    constructor
    · rintro ⟨⟨⟨h0, h1⟩, h2⟩, h9⟩
      exact ⟨by omega, h0, h1, h2, h9⟩
    · rintro ⟨_, h0, h1, h2, h9⟩
      exact ⟨⟨⟨h0, h1⟩, h2⟩, h9⟩

theorem getResponse_state (s : DFPlayer) (incoming : List Nat) (c : Nat) :
    (_getResponse s incoming c).2 = (_readData s incoming).2 := by
  simp only [_getResponse]
  split <;> rfl

theorem getResponse_commFail (s : DFPlayer) (incoming : List Nat) (c : Nat)
    (h : commFail incoming c) : (_getResponse s incoming c).1 = 0 := by
  have hb : ((_readData s incoming).1 &&
      ((_readData s incoming).2.dataBuffer.getD 3 0 == u8 c)) = false := by
    by_cases h1 : (_readData s incoming).1 = true
    · have hs := (readData_true_iff s incoming).mp h1
      rcases h with hl | h0 | hv | hln | he | h3
      · omega
      · exact absurd hs.2.1 h0
      · exact absurd hs.2.2.1 hv
      · exact absurd hs.2.2.2.1 hln
      · exact absurd hs.2.2.2.2 he
      · rw [readData_buffer]
        simp only [h1, List.getD_cons_zero, List.getD_cons_succ, Bool.true_and,
          beq_eq_false_iff_ne, ne_eq]
        exact h3
    · rw [Bool.not_eq_true] at h1
      simp [h1]
  simp only [_getResponse, hb, Bool.false_eq_true, if_false]

/-- C4: decode fails when fewer bytes than the frame size arrived, or the
start, version, length or end-marker byte is corrupted; it succeeds on every
block passing those checks regardless of the two checksum bytes (positions 7
and 8 are never inspected, so overwriting them never changes the result). -/
theorem readData_validation (s : DFPlayer) (incoming : List Nat) :
    ((_readData s incoming).1 = true ↔
      (DFPLAYER_UART_FRAME_SIZE ≤ incoming.length ∧
       u8 (incoming.getD 0 0) = DFPLAYER_UART_START_BYTE ∧
       u8 (incoming.getD 1 0) = DFPLAYER_UART_VERSION ∧
       u8 (incoming.getD 2 0) = DFPLAYER_UART_DATA_LEN ∧
       u8 (incoming.getD 9 0) = DFPLAYER_UART_END_BYTE)) ∧
    ∀ c7 c8 : Nat,
      (_readData s ((incoming.set 7 c7).set 8 c8)).1 = (_readData s incoming).1 := by
  refine ⟨readData_true_iff s incoming, ?_⟩
  intro c7 c8
  rw [Bool.eq_iff_iff, readData_true_iff, readData_true_iff]
  simp [List.getD_eq_getElem?_getD, List.getElem?_set_ne]

/-- C4 instantiated at a concrete inbound block: a well-formed reply with
arbitrary checksum bytes is accepted, and rewriting its checksum bytes
changes nothing. -/
theorem readData_validation_witness :
    ((_readData stdState [0x7E, 0xFF, 0x06, 0x43, 0x00, 0x00, 0x1E, 0x00, 0x00, 0xEF]).1 = true ↔
      (DFPLAYER_UART_FRAME_SIZE ≤
        ([0x7E, 0xFF, 0x06, 0x43, 0x00, 0x00, 0x1E, 0x00, 0x00, 0xEF] : List Nat).length ∧
       u8 (([0x7E, 0xFF, 0x06, 0x43, 0x00, 0x00, 0x1E, 0x00, 0x00, 0xEF] : List Nat).getD 0 0) =
         DFPLAYER_UART_START_BYTE ∧
       u8 (([0x7E, 0xFF, 0x06, 0x43, 0x00, 0x00, 0x1E, 0x00, 0x00, 0xEF] : List Nat).getD 1 0) =
         DFPLAYER_UART_VERSION ∧
       u8 (([0x7E, 0xFF, 0x06, 0x43, 0x00, 0x00, 0x1E, 0x00, 0x00, 0xEF] : List Nat).getD 2 0) =
         DFPLAYER_UART_DATA_LEN ∧
       u8 (([0x7E, 0xFF, 0x06, 0x43, 0x00, 0x00, 0x1E, 0x00, 0x00, 0xEF] : List Nat).getD 9 0) =
         DFPLAYER_UART_END_BYTE)) ∧
    ∀ c7 c8 : Nat,
      (_readData stdState
        ((([0x7E, 0xFF, 0x06, 0x43, 0x00, 0x00, 0x1E, 0x00, 0x00, 0xEF] : List Nat).set 7 c7).set
          8 c8)).1 =
      (_readData stdState [0x7E, 0xFF, 0x06, 0x43, 0x00, 0x00, 0x1E, 0x00, 0x00, 0xEF]).1 :=
  readData_validation stdState _

/-- C5 counterexample: with the session variant set to
`DFPLAYER_NO_CHECKSUM`, a well-formed 8-byte no-checksum frame (its
end-marker at position 7) is rejected by the receive path, although the
claim says 8 bytes with the end-marker at position 7 are expected there. -/
theorem readData_no_checksum_eight_bytes_fails :
    noChkState.moduleType = ModuleType.NO_CHECKSUM ∧
    ([0x7E, 0xFF, 0x06, 0x43, 0x00, 0x00, 0x1E, 0xEF] : List Nat).length = 8 ∧
    ([0x7E, 0xFF, 0x06, 0x43, 0x00, 0x00, 0x1E, 0xEF] : List Nat).getD 7 0 =
      DFPLAYER_UART_END_BYTE ∧
    (_readData noChkState [0x7E, 0xFF, 0x06, 0x43, 0x00, 0x00, 0x1E, 0xEF]).1 = false := by
  decide

/-- C5 (amended): the receive path ignores the session variant entirely —
even when the variant is `DFPLAYER_NO_CHECKSUM` it expects
`DFPLAYER_UART_FRAME_SIZE` (10) bytes and requires the end-marker at
position 9, exactly as for every other variant. -/
theorem readData_frame_size_no_checksum (s : DFPlayer) (incoming : List Nat)
    (_hmt : s.moduleType = ModuleType.NO_CHECKSUM) :
    ((_readData s incoming).1 = true ↔
      (DFPLAYER_UART_FRAME_SIZE ≤ incoming.length ∧
       u8 (incoming.getD 0 0) = DFPLAYER_UART_START_BYTE ∧
       u8 (incoming.getD 1 0) = DFPLAYER_UART_VERSION ∧
       u8 (incoming.getD 2 0) = DFPLAYER_UART_DATA_LEN ∧
       u8 (incoming.getD 9 0) = DFPLAYER_UART_END_BYTE)) :=
  readData_true_iff s incoming

/-- C5 (amended) instantiated in the no-checksum variant at a concrete
10-byte block. -/
theorem readData_frame_size_no_checksum_witness :
    noChkState.moduleType = ModuleType.NO_CHECKSUM ∧
    ((_readData noChkState [0x7E, 0xFF, 0x06, 0x43, 0x00, 0x00, 0x1E, 0xFF, 0xC2, 0xEF]).1 = true ↔
      (DFPLAYER_UART_FRAME_SIZE ≤
        ([0x7E, 0xFF, 0x06, 0x43, 0x00, 0x00, 0x1E, 0xFF, 0xC2, 0xEF] : List Nat).length ∧
       u8 (([0x7E, 0xFF, 0x06, 0x43, 0x00, 0x00, 0x1E, 0xFF, 0xC2, 0xEF] : List Nat).getD 0 0) =
         DFPLAYER_UART_START_BYTE ∧
       u8 (([0x7E, 0xFF, 0x06, 0x43, 0x00, 0x00, 0x1E, 0xFF, 0xC2, 0xEF] : List Nat).getD 1 0) =
         DFPLAYER_UART_VERSION ∧
       u8 (([0x7E, 0xFF, 0x06, 0x43, 0x00, 0x00, 0x1E, 0xFF, 0xC2, 0xEF] : List Nat).getD 2 0) =
         DFPLAYER_UART_DATA_LEN ∧
       u8 (([0x7E, 0xFF, 0x06, 0x43, 0x00, 0x00, 0x1E, 0xFF, 0xC2, 0xEF] : List Nat).getD 9 0) =
         DFPLAYER_UART_END_BYTE)) :=
  ⟨rfl, readData_frame_size_no_checksum noChkState _ rfl⟩

/-- C7: out-of-range arguments are saturated to the nearest legal bound:
`playTrack 0` produces exactly the same frame, state and serial traffic as
`playTrack 1`, `playTrack 10000` the same as `playTrack 9999`, and
`setVolume 31` the same as `setVolume 30`. -/
theorem playTrack_setVolume_clamping (s : DFPlayer) :
    playTrack s 0 = playTrack s 1 ∧
    playTrack s 10000 = playTrack s 9999 ∧
    setVolume s 31 = setVolume s 30 := by
  refine ⟨?_, ?_, ?_⟩ <;> norm_num [playTrack, setVolume, constrain]

/-- C8 counterexample: in the standard variant, encoding command 0x06 with
dataHigh 0, dataLow 0x14 and feedback off does not produce the frame
`7E FF 06 06 00 00 14 FF D4 EF` that the claim states. -/
theorem sendData_volume20_ne_spec_frame :
    (_sendData stdState 0x06 0x00 0x14).1.dataBuffer ≠
      [0x7E, 0xFF, 0x06, 0x06, 0x00, 0x00, 0x14, 0xFF, 0xD4, 0xEF] := by decide

/-- C8 (amended): the frame actually produced is
`7E FF 06 06 00 00 14 FE E1 EF`, i.e. the stored checksum is 0xFEE1
(= 2^16 − (0xFF + 0x06 + 0x06 + 0 + 0 + 0x14)), and exactly those 10 bytes
are written to the serial stream. -/
theorem sendData_volume20_frame :
    (_sendData stdState 0x06 0x00 0x14).1.dataBuffer =
      [0x7E, 0xFF, 0x06, 0x06, 0x00, 0x00, 0x14, 0xFE, 0xE1, 0xEF] ∧
    (_sendData stdState 0x06 0x00 0x14).2 =
      [Event.write [0x7E, 0xFF, 0x06, 0x06, 0x00, 0x00, 0x14, 0xFE, 0xE1, 0xEF]] ∧
    0xFE * 256 + 0xE1 = 0xFEE1 := by decide

/-- C3 (the code evaluated at the failing input): in the `DFPLAYER_FN_X10P`
variant, for command 0x06, feedback off, dataHigh 0, dataLow 0x14, the
big-endian value stored in bytes 7-8 is 0x89B1, and 0x89B1 is not congruent
to `0xFFFF − (0xFF + 0x06 + 0x06 + 0 + 0 + 0x14) + 1` (= 0xFEE1) modulo
2^16: the source initializes `checksum` with the decimal literal 35535
although its own inline comment says 0xFFFF (= 65535). -/
theorem fn_x10p_checksum_bug :
    ((_sendData fnState 0x06 0x00 0x14).1.dataBuffer.getD 7 0) * 256 +
      (_sendData fnState 0x06 0x00 0x14).1.dataBuffer.getD 8 0 = 0x89B1 ∧
    ¬ Int.ModEq 65536 0x89B1
        (0xFFFF - (0xFF + 0x06 + 0x06 + 0x00 + 0x00 + 0x14) + 1) := by decide

/-- C9: getCommandStatus is a pure function of the last-received buffer
(two sessions with the same buffer agree, and no serial traffic exists in
its signature), mapping byte 3 as: 0x40 ↦ error detail from byte 6,
0x41 ↦ 0x0B (accepted-OK), 0x3D ↦ 0x0C (playback-complete),
0x3F ↦ 0x0D (ready-after-boot), anything else ↦ 0 (unknown). -/
theorem getCommandStatus_buffer_map (s t : DFPlayer) (h : s.dataBuffer = t.dataBuffer) :
    getCommandStatus s = getCommandStatus t ∧
    getCommandStatus s =
      (if s.dataBuffer.getD 3 0 = 0x40 then s.dataBuffer.getD 6 0
       else if s.dataBuffer.getD 3 0 = 0x41 then 0x0B
       else if s.dataBuffer.getD 3 0 = 0x3D then 0x0C
       else if s.dataBuffer.getD 3 0 = 0x3F then 0x0D
       else 0x00) := by
  constructor
  · unfold getCommandStatus
    rw [h]
  · unfold getCommandStatus
    split <;> simp_all

/-- Session state whose buffer holds an error reply (byte 3 = 0x40) with
error detail 0x07 in byte 6. -/
def errState : DFPlayer :=
  { threshold := 100, dataBuffer := [0x7E, 0xFF, 0x06, 0x40, 0x00, 0x00, 0x07, 0xFE, 0xB4, 0xEF],
    moduleType := ModuleType.MINI, ack := false }

/-- C9 instantiated at a concrete buffered error reply. -/
theorem getCommandStatus_buffer_map_witness :
    getCommandStatus errState = getCommandStatus errState ∧
    getCommandStatus errState =
      (if errState.dataBuffer.getD 3 0 = 0x40 then errState.dataBuffer.getD 6 0
       else if errState.dataBuffer.getD 3 0 = 0x41 then 0x0B
       else if errState.dataBuffer.getD 3 0 = 0x3D then 0x0C
       else if errState.dataBuffer.getD 3 0 = 0x3F then 0x0D
       else 0x00) :=
  getCommandStatus_buffer_map errState errState rfl

/-- C10: `wakeup 6` is a complete no-op — it returns the session state with
every field unchanged and emits no event (no serial write, no delay) — and
for any other source value `wakeup` behaves exactly as `setSource`. -/
theorem wakeup_noop_or_setSource (s : DFPlayer) (source : Nat) (h : source ≠ 6) :
    wakeup s 6 = (s, []) ∧ wakeup s source = setSource s source := by
  constructor
  · simp [wakeup]
  · simp [wakeup, h]

/-- C10 instantiated at a concrete session and source 2. -/
theorem wakeup_noop_or_setSource_witness :
    wakeup stdState 6 = (stdState, []) ∧ wakeup stdState 2 = setSource stdState 2 :=
  wakeup_noop_or_setSource stdState 2 (by decide)

theorem toInt16_modEq (x : Int) : Int.ModEq 65536 (toInt16 x) x := by
  unfold Int.ModEq toInt16
  omega

theorem checksum_bytes_modEq (chk : Int) :
    Int.ModEq 65536 ((((sar8 chk) % 256).toNat : Int) * 256 + ((chk % 256).toNat : Int)) chk := by
  rw [Int.toNat_of_nonneg (Int.emod_nonneg _ (by norm_num)),
      Int.toNat_of_nonneg (Int.emod_nonneg _ (by norm_num))]
  unfold Int.ModEq sar8
  omega

theorem sendData_moduleType (s : DFPlayer) (c a b : Nat) :
    (_sendData s c a b).1.moduleType = s.moduleType := by
  rcases s with ⟨t, bf, mt, ak⟩
  cases mt <;> rfl

theorem sendData_buffer_std (s : DFPlayer) (c dh dl : Nat)
    (hmt : s.moduleType = ModuleType.MINI ∨ s.moduleType = ModuleType.HW_247A) :
    (_sendData s c dh dl).1.dataBuffer =
      [DFPLAYER_UART_START_BYTE, DFPLAYER_UART_VERSION, DFPLAYER_UART_DATA_LEN,
       u8 c, ackByte s.ack, u8 dh, u8 dl,
       ((sar8 (toInt16 (toInt16 0 - (DFPLAYER_UART_VERSION : Int) - (DFPLAYER_UART_DATA_LEN : Int) -
          (u8 c : Int) - (ackByte s.ack : Int) - (u8 dh : Int) - (u8 dl : Int))) % 256).toNat),
       ((toInt16 (toInt16 0 - (DFPLAYER_UART_VERSION : Int) - (DFPLAYER_UART_DATA_LEN : Int) -
          (u8 c : Int) - (ackByte s.ack : Int) - (u8 dh : Int) - (u8 dl : Int)) % 256).toNat),
       DFPLAYER_UART_END_BYTE] := by
  rcases s with ⟨t, bf, mt, ak⟩
  rcases hmt with h | h <;> (cases h; rfl)

theorem sendData_frame_shape (s : DFPlayer) (c dh dl : Nat)
    (hmt : s.moduleType ≠ ModuleType.NO_CHECKSUM) :
    ∃ b7 b8 : Nat,
      (_sendData s c dh dl).1.dataBuffer =
        [DFPLAYER_UART_START_BYTE, DFPLAYER_UART_VERSION, DFPLAYER_UART_DATA_LEN,
         u8 c, ackByte s.ack, u8 dh, u8 dl, b7, b8, DFPLAYER_UART_END_BYTE] ∧
      (_sendData s c dh dl).2.head? = some (Event.write (_sendData s c dh dl).1.dataBuffer) := by
  rcases s with ⟨t, bf, mt, ak⟩
  cases mt
  · exact ⟨_, _, rfl, rfl⟩
  · exact ⟨_, _, rfl, rfl⟩
  · exact ⟨_, _, rfl, rfl⟩
  · exact absurd rfl hmt

theorem u8_u8 (x : Nat) : u8 (u8 x) = u8 x := by
  unfold u8
  omega

/-- C2: for every frame generated in the standard variant (`DFPLAYER_MINI`
or `DFPLAYER_HW_247A`), the big-endian 16-bit value stored in bytes 7-8 is
congruent to `0 − (version + length + command + ack + dataHigh + dataLow)`
modulo 2^16 (the intermediate lives in the `int16_t` range, modelled by
`toInt16`). -/
theorem checksum_standard_congruence (s : DFPlayer) (c dh dl : Nat)
    (hmt : s.moduleType = ModuleType.MINI ∨ s.moduleType = ModuleType.HW_247A)
    (hc : c < 256) (hdh : dh < 256) (hdl : dl < 256) :
    Int.ModEq 65536
      (((_sendData s c dh dl).1.dataBuffer.getD 7 0 : Int) * 256 +
        ((_sendData s c dh dl).1.dataBuffer.getD 8 0 : Int))
      (0 - ((DFPLAYER_UART_VERSION : Int) + (DFPLAYER_UART_DATA_LEN : Int) + (c : Int) +
        (ackByte s.ack : Int) + (dh : Int) + (dl : Int))) := by
  rw [sendData_buffer_std s c dh dl hmt]
  simp only [List.getD_cons_zero, List.getD_cons_succ]
  have h1 : u8 c = c := Nat.mod_eq_of_lt hc
  have h2 : u8 dh = dh := Nat.mod_eq_of_lt hdh
  have h3 : u8 dl = dl := Nat.mod_eq_of_lt hdl
  rw [h1, h2, h3]
  refine (checksum_bytes_modEq _).trans ((toInt16_modEq _).trans ?_)
  unfold Int.ModEq toInt16 DFPLAYER_UART_VERSION DFPLAYER_UART_DATA_LEN
  omega

/-- C2 instantiated in the standard variant at command 0x06, dataHigh 0,
dataLow 0x14, feedback off. -/
theorem checksum_standard_congruence_witness :
    (stdState.moduleType = ModuleType.MINI ∨ stdState.moduleType = ModuleType.HW_247A) ∧
    (0x06 : Nat) < 256 ∧ (0x00 : Nat) < 256 ∧ (0x14 : Nat) < 256 ∧
    Int.ModEq 65536
      (((_sendData stdState 0x06 0x00 0x14).1.dataBuffer.getD 7 0 : Int) * 256 +
        ((_sendData stdState 0x06 0x00 0x14).1.dataBuffer.getD 8 0 : Int))
      (0 - ((DFPLAYER_UART_VERSION : Int) + (DFPLAYER_UART_DATA_LEN : Int) + ((0x06 : Nat) : Int) +
        (ackByte stdState.ack : Int) + ((0x00 : Nat) : Int) + ((0x14 : Nat) : Int))) :=
  ⟨Or.inl rfl, by decide, by decide, by decide,
   checksum_standard_congruence stdState 0x06 0x00 0x14 (Or.inl rfl)
     (by decide) (by decide) (by decide)⟩

/-- C1: for every command byte, data bytes and acknowledgement flag, and
every variant other than `DFPLAYER_NO_CHECKSUM`, the 10-byte frame built by
`_sendData` is exactly what goes over the serial stream, and decoding it
with the same expected command passes all structural checks, passes the
command-echo check, and yields exactly the payload `(dh <<< 8) ||| dl`. -/
theorem decode_encode_roundtrip (s r : DFPlayer) (c dh dl : Nat)
    (hmt : s.moduleType ≠ ModuleType.NO_CHECKSUM)
    (hc : c < 256) (hdh : dh < 256) (hdl : dl < 256) :
    (_sendData s c dh dl).2.head? = some (Event.write (_sendData s c dh dl).1.dataBuffer) ∧
    (_sendData s c dh dl).1.dataBuffer.length = DFPLAYER_UART_FRAME_SIZE ∧
    (_readData r (_sendData s c dh dl).1.dataBuffer).1 = true ∧
    (_getResponse r (_sendData s c dh dl).1.dataBuffer c).1 = (dh <<< 8) ||| dl := by
  obtain ⟨b7, b8, hbuf, hhead⟩ := sendData_frame_shape s c dh dl hmt
  have h1 : u8 c = c := Nat.mod_eq_of_lt hc
  have h2 : u8 dh = dh := Nat.mod_eq_of_lt hdh
  have h3 : u8 dl = dl := Nat.mod_eq_of_lt hdl
  have hok : (_readData r (_sendData s c dh dl).1.dataBuffer).1 = true := by
    rw [hbuf, readData_true_iff]
    refine ⟨by norm_num [DFPLAYER_UART_FRAME_SIZE], ?_, ?_, ?_, ?_⟩ <;> simp [u8_u8] <;> rfl
  refine ⟨hhead, by rw [hbuf]; rfl, hok, ?_⟩
  have hcond : ((_readData r (_sendData s c dh dl).1.dataBuffer).1 &&
      ((_readData r (_sendData s c dh dl).1.dataBuffer).2.dataBuffer.getD 3 0 == u8 c)) = true := by
    rw [hok, readData_buffer, hbuf]
    simp [u8_u8]
  simp only [_getResponse, hcond, if_true]
  rw [readData_buffer, hbuf]
  simp only [List.getD_cons_zero, List.getD_cons_succ, u8_u8, h2, h3]

/-- C1 instantiated in the standard variant at the get-volume reply shape:
command 0x43, dataHigh 0, dataLow 0x1E. -/
theorem decode_encode_roundtrip_witness :
    stdState.moduleType ≠ ModuleType.NO_CHECKSUM ∧
    (0x43 : Nat) < 256 ∧ (0x00 : Nat) < 256 ∧ (0x1E : Nat) < 256 ∧
    ((_sendData stdState 0x43 0x00 0x1E).2.head? =
       some (Event.write (_sendData stdState 0x43 0x00 0x1E).1.dataBuffer) ∧
     (_sendData stdState 0x43 0x00 0x1E).1.dataBuffer.length = DFPLAYER_UART_FRAME_SIZE ∧
     (_readData stdState (_sendData stdState 0x43 0x00 0x1E).1.dataBuffer).1 = true ∧
     (_getResponse stdState (_sendData stdState 0x43 0x00 0x1E).1.dataBuffer 0x43).1 =
       ((0x00 : Nat) <<< 8) ||| 0x1E) :=
  ⟨by decide, by decide, by decide, by decide,
   decode_encode_roundtrip stdState stdState 0x43 0x00 0x1E
     (by decide) (by decide) (by decide) (by decide)⟩

instance (incoming : List Nat) (command : Nat) : Decidable (commFail incoming command) := by
  unfold commFail
  infer_instance

/-- C6: whenever the inbound block is short, structurally invalid, or its
byte 3 does not echo the command code of the query, every numeric query wrapper
returns the sentinel 0, and getStatus maps the underlying 0 sentinel onto
its communication-error status (4, read as "stop" = 0 only on
`DFPLAYER_HW_247A`, whose replies legitimately use 0x0000). -/
theorem query_comm_error_sentinel (s : DFPlayer) (incoming : List Nat) :
    (commFail incoming DFPLAYER_GET_VOL → (getVolume s incoming).1 = 0) ∧
    (commFail incoming DFPLAYER_GET_EQ → (getEQ s incoming).1 = 0) ∧
    (commFail incoming DFPLAYER_GET_PLAY_MODE → (getPlayMode s incoming).1 = 0) ∧
    (commFail incoming DFPLAYER_GET_VERSION → (getVersion s incoming).1 = 0) ∧
    (commFail incoming DFPLAYER_GET_QNT_TF_FILES → (getTotalTracksSD s incoming).1 = 0) ∧
    (commFail incoming DFPLAYER_GET_QNT_USB_FILES → (getTotalTracksUSB s incoming).1 = 0) ∧
    (commFail incoming DFPLAYER_GET_QNT_FLASH_FILES → (getTotalTracksNORFlash s incoming).1 = 0) ∧
    (commFail incoming DFPLAYER_GET_TF_TRACK → (getTrackSD s incoming).1 = 0) ∧
    (commFail incoming DFPLAYER_GET_USB_TRACK → (getTrackUSB s incoming).1 = 0) ∧
    (commFail incoming DFPLAYER_GET_FLASH_TRACK → (getTrackNORFlash s incoming).1 = 0) ∧
    (∀ folder, commFail incoming DFPLAYER_GET_QNT_FOLDER_FILES →
      (getTotalTracksFolder s folder incoming).1 = 0) ∧
    (commFail incoming DFPLAYER_GET_QNT_FOLDERS → (getTotalFolders s incoming).1 = 0) ∧
    (commFail incoming DFPLAYER_GET_STATUS →
      (getStatus s incoming).1 = if s.moduleType ≠ ModuleType.HW_247A then 4 else 0) := by
  refine ⟨?_, ?_, ?_, ?_, ?_, ?_, ?_, ?_, ?_, ?_, ?_, ?_, ?_⟩
  case _ =>
    intro h
    simp [getVolume, fun st => getResponse_commFail st incoming DFPLAYER_GET_VOL h, u8]
  case _ =>
    intro h
    simp [getEQ, fun st => getResponse_commFail st incoming DFPLAYER_GET_EQ h, u8]
  case _ =>
    intro h
    simp [getPlayMode, fun st => getResponse_commFail st incoming DFPLAYER_GET_PLAY_MODE h, u8]
  case _ =>
    intro h
    simp [getVersion, fun st => getResponse_commFail st incoming DFPLAYER_GET_VERSION h, u8]
  case _ =>
    intro h
    simp [getTotalTracksSD, fun st => getResponse_commFail st incoming DFPLAYER_GET_QNT_TF_FILES h]
  case _ =>
    intro h
    simp [getTotalTracksUSB, fun st => getResponse_commFail st incoming DFPLAYER_GET_QNT_USB_FILES h]
  case _ =>
    intro h
    simp [getTotalTracksNORFlash,
      fun st => getResponse_commFail st incoming DFPLAYER_GET_QNT_FLASH_FILES h]
  case _ =>
    intro h
    simp [getTrackSD, fun st => getResponse_commFail st incoming DFPLAYER_GET_TF_TRACK h]
  case _ =>
    intro h
    simp [getTrackUSB, fun st => getResponse_commFail st incoming DFPLAYER_GET_USB_TRACK h]
  case _ =>
    intro h
    simp [getTrackNORFlash, fun st => getResponse_commFail st incoming DFPLAYER_GET_FLASH_TRACK h]
  case _ =>
    intro folder h
    simp [getTotalTracksFolder,
      fun st => getResponse_commFail st incoming DFPLAYER_GET_QNT_FOLDER_FILES h, u8]
  case _ =>
    intro h
    simp [getTotalFolders, fun st => getResponse_commFail st incoming DFPLAYER_GET_QNT_FOLDERS h, u8]
  case _ =>
    intro h
    simp only [getStatus, fun st => getResponse_commFail st incoming DFPLAYER_GET_STATUS h,
      getResponse_state, readData_moduleType, sendData_moduleType]

/-- C6 instantiated at an empty inbound block (read timeout with 0 of the
10 expected bytes): the volume query and the status query both surface
their sentinel. -/
theorem query_comm_error_sentinel_witness :
    commFail [] DFPLAYER_GET_VOL ∧ commFail [] DFPLAYER_GET_STATUS ∧
    (getVolume stdState []).1 = 0 ∧
    ((getStatus stdState []).1 = if stdState.moduleType ≠ ModuleType.HW_247A then 4 else 0) :=
  ⟨by decide, by decide,
   (query_comm_error_sentinel stdState []).1 (by decide),
   (query_comm_error_sentinel stdState []).2.2.2.2.2.2.2.2.2.2.2.2 (by decide)⟩

end DFPlayerEmb
